import Mathlib

/-!
Shallow embedding of `arm_gdb/scb.py`: the ARM Cortex-M SCB/FPU register
description tables and the decoding engine they rely on.

The register tables, the model-detection table and both command bodies are
embedded directly from `src/arm_gdb/scb.py`.  The decoding helpers that
`scb.py` imports from the repository's `common` module (`RegisterDef`,
`FieldBitfield`, `FieldBitfieldEnum`, `FieldBitfieldMap`, `filt`,
`read_reg`, `format_int`, `ArgCommand.process_args`) are not part of the
excerpt; each such definition below is modelled from the specification and
says so in its doc comment.
-/

/-- One enumerated-value entry of a bitfield: the matching value, the
is-default flag (true suppresses output of the matching field unless
overridden), a short label, and an optional long description.  Mirrors the
4-tuples used throughout `get_scb_regs` / `get_fpu_regs`. -/
structure EnumEntry where
  val : Nat
  isDefault : Bool
  label : String
  descr : Option String
deriving Repr, DecidableEq

/-- The three kinds of bitfield appearing in the tables: a plain bitfield,
an enumerated bitfield with candidate entries, and a computed-label
bitfield carrying a label function. -/
inductive FieldKind where
  | plain : FieldKind
  | enum : List EnumEntry → FieldKind
  | map : (Nat → String) → FieldKind

/-- A named sub-range of bits of a register: name, bit offset, bit width,
optional description, always-show flag, and the field kind. -/
structure BitField where
  name : String
  offset : Nat
  width : Nat
  descr : Option String
  always : Bool
  kind : FieldKind

/-- Modelled from the spec: `FieldBitfield` of the missing `common`
module — a plain bitfield with optional description and always-show
flag. -/
def FieldBitfield (n : String) (o w : Nat) (d : Option String) (alw : Bool) : BitField :=
  ⟨n, o, w, d, alw, FieldKind.plain⟩

/-- Modelled from the spec: `FieldBitfieldEnum` of the missing `common`
module — a bitfield with an ordered list of enumerated-value entries. -/
def FieldBitfieldEnum (n : String) (o w : Nat) (es : List EnumEntry) (d : Option String) : BitField :=
  ⟨n, o, w, d, false, FieldKind.enum es⟩

/-- Modelled from the spec: `FieldBitfieldMap` of the missing `common`
module — a bitfield whose label is computed from the field value by a
function. -/
def FieldBitfieldMap (n : String) (o w : Nat) (fn : Nat → String) (d : Option String) : BitField :=
  ⟨n, o, w, d, false, FieldKind.map fn⟩

/-- A register: name, description, absolute address, byte width, and the
ordered list of bitfields.  Mirrors `RegisterDef` of the missing `common`
module (attributes as used by `scb.py`). -/
structure RegisterDef where
  name : String
  descr : String
  addr : Nat
  width : Nat
  fields : List BitField

/-- Split a character list at commas, accumulating the current label in
reverse. -/
def splitCommaAux : List Char → List Char → List String
  | [], acc => [String.mk acc.reverse]
  | c :: rest, acc =>
    if c == ',' then String.mk acc.reverse :: splitCommaAux rest []
    else splitCommaAux rest (c :: acc)

/-- The comma-separated labels of a variant tag, e.g. `"M3,M7"` into
`["M3", "M7"]`. -/
def splitComma (s : String) : List String :=
  splitCommaAux s.toList []

/-- Modelled from the spec (§4.4): does an entry with the given
comma-separated variant tag pass the filter for the given detected model?
An untagged entry always passes; a `none` model disables filtering;
matching is set membership in the tag's comma-separated label set. -/
def tagPasses (model : Option String) (tag : Option String) : Bool :=
  match tag, model with
  | none, _ => true
  | some _, none => true
  | some t, some m => (splitComma t).contains m

/-- Modelled from the spec (§4.4): `filt` of the missing `common` module —
keep the entries whose variant tag passes for the detected model and strip
the tags. -/
def filt {α : Type} (model : Option String) (xs : List (Option String × α)) : List α :=
  (xs.filter (fun x => tagPasses model x.1)).map Prod.snd

/-- Modelled from the spec (§4.1): bitfield extraction — right-shift the
raw value by the bit offset and mask to the bit width. -/
def extract (raw offset width : Nat) : Nat :=
  (raw >>> offset) &&& ((1 <<< width) - 1)

/-- Modelled from the spec (§4.2): return the first enumeration entry whose
value equals the extracted field value (declaration order, first match
wins). -/
def matchEnum (es : List EnumEntry) (v : Nat) : Option EnumEntry :=
  es.find? (fun e => e.val == v)

/-- Modelled from the spec (§4.2): the resolved textual label of a field at
a given raw register value — the first matching enum entry's label, the
computed label for a map field, and no label for a plain field or an
unmatched value. -/
def fieldLabel (f : BitField) (raw : Nat) : Option String :=
  match f.kind with
  | FieldKind.plain => none
  | FieldKind.enum es => (matchEnum es (extract raw f.offset f.width)).map (fun e => e.label)
  | FieldKind.map fn => some (fn (extract raw f.offset f.width))

/-- Modelled from the spec (§4.2): whether the field's current value
matches an enumeration entry flagged as default/expected. -/
def isDefaultValue (f : BitField) (raw : Nat) : Bool :=
  match f.kind with
  | FieldKind.plain => false
  | FieldKind.enum es =>
    match matchEnum es (extract raw f.offset f.width) with
    | some e => e.isDefault
    | none => false
  | FieldKind.map _ => false

/-- Modelled from the spec (§4.2 display suppression): a field is printed
unless its value matches a default enum entry, overridden by the field's
always-show flag or the show-all request. -/
def shouldShow (all : Bool) (f : BitField) (raw : Nat) : Bool :=
  all || f.always || !(isDefaultValue f raw)

/-- The names of the fields of a register that the dump prints, in declared
order, at the given raw value and show-all flag. -/
def shownFields (reg : RegisterDef) (raw : Nat) (all : Bool) : List String :=
  ((reg.fields.filter (fun f => shouldShow all f raw)).map BitField.name)

/-- The `enum_val_en_dis` local enumeration of `get_scb_regs` (declared in
the source; not referenced by any field of the excerpted tables). -/
def enum_val_en_dis : List EnumEntry := [
  ⟨0, true, "Normal operation", none⟩,
  ⟨1, false, "Disabled", none⟩
]

/-- The `CPACR_enum_fields` local enumeration of `get_scb_regs`, shared by
the ten CPACR coprocessor-access fields. -/
def CPACR_enum_fields : List EnumEntry := [
  ⟨0b00, true, "Access denied", some ("Any attempted access generates a NOCP UsageFault.")⟩,
  ⟨0b01, true, "Privileged access only.", some ("An unprivileged access generates a NOCP UsageFault.")⟩,
  ⟨0b10, true, "Reserved.", none⟩,
  ⟨0b11, true, "Full access.", none⟩
]

/-- The SCB/AUX register tables of `get_scb_regs` in `scb.py`, filtered for
the given detected model.  The Python dict becomes an ordered association
list (insertion order `SCB` then `AUX`). -/
def get_scb_regs (model : Option String) : List (String × List RegisterDef) := [
  ("SCB", filt model [
    (none, RegisterDef.mk ("CPUID") ("CPUID Base Register") 0xE000ED00 4 [
      FieldBitfieldEnum ("Implementer") 24 8 [
        ⟨0x41, false, "ARM", none⟩
      ] (some ("Implementer code assigned by Arm")),
      FieldBitfield ("Variant") 20 4 none false,
      FieldBitfield ("Architecture") 16 4 (some ("constant - 1111")) false,
      FieldBitfieldEnum ("PartNo") 4 12 [
        ⟨0xc20, false, "Cortex-M0", none⟩,
        ⟨0xc23, false, "Cortex-M3", none⟩,
        ⟨0xc24, false, "Cortex-M4", none⟩,
        ⟨0xc27, false, "Cortex-M7", none⟩,
        ⟨0xd21, false, "Cortex-M33", none⟩
      ] none,
      FieldBitfield ("Revision") 0 4 none false
    ]),
    (none, RegisterDef.mk ("ICSR") ("Interrupt Control and State Register") 0xE000ED04 4 [
      FieldBitfield ("NMIPENDSET") 31 1 none false,
      FieldBitfield ("PENDSVSET") 28 1 none false,
      FieldBitfield ("PENDSTSET") 26 1 none false,
      FieldBitfield ("PENDSTCLR") 25 1 none false,
      FieldBitfield ("ISRPREEMPT") 23 1 (some ("Indicates whether a pending exception will be serviced on exit from debug halt state")) false,
      FieldBitfield ("ISRPENDING") 22 1 (some ("Indicates whether an external interrupt, generated by the NVIC, is pending")) false,
      FieldBitfield ("VECTPENDING") 12 6 (some ("The exception number of the highest priority pending and enabled interrupt")) false,
      FieldBitfield ("RETTOBASE") 11 1 (some ("In Handler mode, indicates whether there is an active exception other than the exception indicated by the current value of the IPSR")) false,
      FieldBitfield ("VECTACTIVE") 0 8 none false
    ]),
    (none, RegisterDef.mk ("VTOR") ("Vector Table Offset Register") 0xE000ED08 4 [
      FieldBitfield ("TBLOFF") 7 25 (some ("Bits[31:7] of the vector table address")) false
    ]),
    (none, RegisterDef.mk ("AIRCR") ("Application Interrupt and Reset Control Register") 0xE000ED0C 4 [
      FieldBitfieldEnum ("VECTKEYSTAT") 16 16 [
        ⟨0x05fa, true, "Register writes must write 0x05FA to this field, otherwise the write is ignored", none⟩,
        ⟨0xfa05, true, "On reads, returns 0xFA05", none⟩
      ] none,
      FieldBitfieldEnum ("ENDIANNESS") 15 1 [
        ⟨0, false, "Little Endian", none⟩,
        ⟨1, false, "Big Endian", none⟩
      ] none,
      FieldBitfield ("PRIGROUP") 8 3 (some ("Priority grouping, indicates the binary point position.")) false,
      FieldBitfield ("SYSRESETREQ") 2 1 (some ("System Reset Request")) false
    ]),
    (none, RegisterDef.mk ("SCR") ("System Control Register") 0xE000ED10 4 [
      FieldBitfield ("SEVONPEND") 4 1 (some ("Determines whether an interrupt transition from inactive state to pending state is a wakeup event")) false,
      FieldBitfield ("SLEEPDEEP") 2 1 (some ("Provides a qualifying hint indicating that waking from sleep might take longer")) false,
      FieldBitfield ("SLEEPONEXIT") 1 1 (some ("Determines whether, on an exit from an ISR that returns to the base level of execution priority, the processor enters a sleep state")) false
    ]),
    (none, RegisterDef.mk ("CCR") ("Configuration and Control Register") 0xE000ED14 4 (filt model [
      (some ("M7"), FieldBitfield ("BP") 18 1 (some ("Branch prediction enable bit.")) false),
      (some ("M7"), FieldBitfield ("IC") 17 1 (some ("Instruction cache enable bit.")) false),
      (some ("M7"), FieldBitfield ("DC") 16 1 (some ("Cache enable bit.")) false),
      (some ("M3,M7"), FieldBitfield ("STKALIGN") 9 1 (some ("Determines whether the exception entry sequence guarantees 8-byte stack frame alignment")) false),
      (some ("M3,M7"), FieldBitfieldEnum ("BFHFNMIGN") 8 1 [
        ⟨0, false, "Precise data access fault causes a lockup", none⟩,
        ⟨1, false, "Handler ignores the fault.", none⟩
      ] (some ("Determines the effect of precise data access faults on handlers running at priority -1 or priority -2"))),
      (some ("M3,M7"), FieldBitfield ("DIV_0_TRP") 4 1 (some ("Controls the trap on divide by 0")) false),
      (some ("M3,M7"), FieldBitfield ("UNALIGN_TRP") 3 1 (some ("Controls the trapping of unaligned word or halfword accesses")) false),
      (some ("M3,M7"), FieldBitfield ("USERSETMPEND") 1 1 (some ("Controls whether unprivileged software can access the STIR")) false),
      (some ("M3,M7"), FieldBitfield ("NONBASETHRDENA") 0 1 (some ("Controls whether the processor can enter Thread mode with exceptions active")) false)
    ])),
    (none, RegisterDef.mk ("SHPR1") ("System Handler Priority Register 1") 0xE000ED18 4 [
      FieldBitfield ("PRI_4 - MemManage") 0 8 (some ("Priority of system handler 4, MemManage.")) false,
      FieldBitfield ("PRI_5 - BusFault") 8 8 (some ("Priority of system handler 5, BusFault.")) false,
      FieldBitfield ("PRI_6 - UsageFault") 16 8 (some ("Priority of system handler 6, UsageFault.")) false,
      FieldBitfield ("PRI_7") 24 8 (some ("Reserved for priority of system handler 7")) false
    ]),
    (none, RegisterDef.mk ("SHPR2") ("System Handler Priority Register 2") 0xE000ED1C 4 [
      FieldBitfield ("PRI_8") 0 8 (some ("Reserved for priority of system handler 8.")) false,
      FieldBitfield ("PRI_9") 8 8 (some ("Reserved for priority of system handler 9.")) false,
      FieldBitfield ("PRI_10") 16 8 (some ("Reserved for priority of system handler 10.")) false,
      FieldBitfield ("PRI_11 - SVCall") 24 8 (some ("Priority of system handler 11, SVCall.")) false
    ]),
    (none, RegisterDef.mk ("SHPR3") ("System Handler Priority Register 3") 0xE000ED20 4 [
      FieldBitfield ("PRI_12 - DebugMonitor") 0 8 (some ("Priority of system handler 12, DebugMonitor.")) false,
      FieldBitfield ("PRI_13") 8 8 (some ("Reserved for priority of system handler 13.")) false,
      FieldBitfield ("PRI_14 - PendSV") 16 8 (some ("Priority of system handler 14, PendSV.")) false,
      FieldBitfield ("PRI_15 - SysTick") 24 8 (some ("Priority of system handler 15, SysTick.")) false
    ]),
    (none, RegisterDef.mk ("SHCSR") ("System Handler Control and State Register") 0xE000ED24 4 [
      FieldBitfield ("USGFAULTENA") 18 1 (some ("Indicates if UsageFault is enabled.")) false,
      FieldBitfield ("BUSFAULTENA") 17 1 (some ("Indicates if BusFault is enabled.")) false,
      FieldBitfield ("MEMFAULTENA") 16 1 (some ("Indicates if MemFault is enabled.")) false,
      FieldBitfield ("SVCALLPENDED") 15 1 (some ("Indicates if SVCall is pending.")) false,
      FieldBitfield ("BUSFAULTPENDED") 14 1 (some ("Indicates if BusFault is pending")) false,
      FieldBitfield ("MEMFAULTPENDED") 13 1 (some ("Indicates if MemFault is pending")) false,
      FieldBitfield ("USGFAULTPENDED") 12 1 (some ("Indicates if UsageFault is pending")) false,
      FieldBitfield ("SYSTICKACT") 11 1 (some ("Indicates if SysTick is active")) false,
      FieldBitfield ("PENDSVACT") 10 1 (some ("Indicates if PendSV is active")) false,
      FieldBitfield ("MONITORACT") 8 1 (some ("Indicates if Monitor is active")) false,
      FieldBitfield ("SVCALLACT") 7 1 (some ("Indicates if SVCall is active")) false,
      FieldBitfield ("USGFAULTACT") 3 1 (some ("Indicates if UsageFault is active")) false,
      FieldBitfield ("BUSFAULTACT") 1 1 (some ("Indicates if BusFault is active")) false,
      FieldBitfield ("MEMFAULTACT") 0 1 (some ("Indicates if MemFault is active")) false
    ]),
    (none, RegisterDef.mk ("CFSR") ("Configurable Fault Status Register") 0xE000ED28 4 [
      FieldBitfield ("MMFSR") 0 8 (some ("MemManage Fault Status Register")) true,
      FieldBitfield ("MMARVALID") (7+0) 1 (some ("Indicates if MMFAR has valid contents.")) false,
      FieldBitfield ("MLSPERR") (5+0) 1 (some ("Indicates if a MemManage fault occurred during FP lazy state preservation.")) false,
      FieldBitfield ("MSTKERR") (4+0) 1 (some ("Indicates if a derived MemManage fault occurred on exception entry.")) false,
      FieldBitfield ("MUNSTKERR") (3+0) 1 (some ("Indicates if a derived MemManage fault occurred on exception return.")) false,
      FieldBitfield ("DACCVIOL") (1+0) 1 (some ("Data access violation. The MMFAR shows the data address that the load or store tried to access.")) false,
      FieldBitfield ("IACCVIOL") (0+0) 1 (some ("MPU or Execute Never (XN) default memory map access violation on an instruction fetch has occurred.")) false,
      FieldBitfield ("BFSR") 8 8 (some ("BusFault Status Register")) true,
      FieldBitfield ("BFARVALID") (7+8) 1 (some ("Indicates if BFAR has valid contents.")) false,
      FieldBitfield ("LSPERR") (5+8) 1 (some ("Indicates if a bus fault occurred during FP lazy state preservation.")) false,
      FieldBitfield ("STKERR") (4+8) 1 (some ("Indicates if a derived bus fault has occurred on exception entry.")) false,
      FieldBitfield ("UNSTKERR") (3+8) 1 (some ("Indicates if a derived bus fault has occurred on exception return.")) false,
      FieldBitfield ("IMPRECISERR") (2+8) 1 (some ("Indicates if imprecise data access error has occurred.")) false,
      FieldBitfield ("PRECISERR") (1+8) 1 (some ("Indicates if a precise data access error has occurred, and the processor has written the faulting address to the BFAR.")) false,
      FieldBitfield ("IBUSERR") (0+8) 1 (some ("Indicates if a bus fault on an instruction prefetch has occurred. The fault is signaled only if the instruction is issued.")) false,
      FieldBitfield ("UFSR") 16 16 (some ("UsageFault Status Register")) true,
      FieldBitfield ("DIVBYZERO") (9+16) 1 (some ("Indicates if divide by zero error has occurred.")) false,
      FieldBitfield ("UNALIGNED") (8+16) 1 (some ("Indicates if unaligned access error has occurred.")) false,
      FieldBitfield ("NOCP") (3+16) 1 (some ("Indicates if a coprocessor access error has occurred. This shows that the coprocessor is disabled or not present.")) false,
      FieldBitfield ("INVPC") (2+16) 1 (some ("Indicates if an integrity check error has occurred on EXC_RETURN.")) false,
      FieldBitfield ("INVSTATE") (1+16) 1 (some ("Indicates if instruction executed with invalid EPSR.T or EPSR.IT field.")) false,
      FieldBitfield ("UNDEFINSTR") (0+16) 1 (some ("Indicates if the processor has attempted to execute an undefined instruction.")) false
    ]),
    (none, RegisterDef.mk ("HFSR") ("HardFault Status Register") 0xE000ED2C 4 [
      FieldBitfield ("DEBUGEVT") 31 1 (some ("Indicates when a Debug event has occurred.")) false,
      FieldBitfield ("FORCED") 30 1 (some ("Indicates that a fault with configurable priority has been escalated to a HardFault exception.")) false,
      FieldBitfield ("VECTTBL") 1 1 (some ("Indicates when a fault has occurred because of a vector table read error on exception processing.")) false
    ]),
    (none, RegisterDef.mk ("DFSR") ("Debug Fault Status Register") 0xE000ED30 4 [
      FieldBitfieldEnum ("EXTERNAL") 4 1 [
        ⟨0, true, "No external debug request debug event", none⟩,
        ⟨1, false, "External debug request debug event", none⟩
      ] (some ("Indicates a debug event generated because of the assertion of an external debug request")),
      FieldBitfieldEnum ("VCATCH") 3 1 [
        ⟨0, true, "No Vector catch triggered", none⟩,
        ⟨1, false, "Vector catch triggered", none⟩
      ] (some ("Indicates triggering of a Vector catch")),
      FieldBitfieldEnum ("DWTTRAP") 2 1 [
        ⟨0, true, "No debug events generated by the DWT", none⟩,
        ⟨1, false, "At least one debug event generated by the DWT", none⟩
      ] (some ("Indicates a debug event generated by the DWT")),
      FieldBitfieldEnum ("BKPT") 1 1 [
        ⟨0, true, "No breakpoint debug event", none⟩,
        ⟨1, false, "At least one breakpoint debug event", none⟩
      ] (some ("Indicates a debug event generated by BKPT instruction execution or a breakpoint match in FPB")),
      FieldBitfieldEnum ("HALTED") 0 1 [
        ⟨0, true, "No halt request debug event", none⟩,
        ⟨1, false, "Halt request debug event", none⟩
      ] (some ("Indicates a debug event generated by either C_HALT, C_STEP or DEMCR.MON_STEP"))
    ]),
    (none, RegisterDef.mk ("MMFAR") ("MemManage Fault Address Register") 0xE000ED34 4 []),
    (none, RegisterDef.mk ("BFAR") ("BusFault Address Register") 0xE000ED38 4 []),
    (some ("M3,M4"), RegisterDef.mk ("AFSR") ("Auxiliary Fault Status Register") 0xE000ED3C 4 [
      FieldBitfield ("IMPDEF") 0 32 (some ("Implemention defined")) false
    ]),
    (none, RegisterDef.mk ("CPACR") ("Coprocessor Access Control Register") 0xE000ED88 4 [
      FieldBitfieldEnum ("CP0") 0 2 CPACR_enum_fields (some ("Access privileges for coprocessor 0")),
      FieldBitfieldEnum ("CP1") 2 2 CPACR_enum_fields (some ("Access privileges for coprocessor 1")),
      FieldBitfieldEnum ("CP2") 4 2 CPACR_enum_fields (some ("Access privileges for coprocessor 2")),
      FieldBitfieldEnum ("CP3") 6 2 CPACR_enum_fields (some ("Access privileges for coprocessor 3")),
      FieldBitfieldEnum ("CP4") 8 2 CPACR_enum_fields (some ("Access privileges for coprocessor 4")),
      FieldBitfieldEnum ("CP5") 10 2 CPACR_enum_fields (some ("Access privileges for coprocessor 5")),
      FieldBitfieldEnum ("CP6") 12 2 CPACR_enum_fields (some ("Access privileges for coprocessor 6")),
      FieldBitfieldEnum ("CP7") 14 2 CPACR_enum_fields (some ("Access privileges for coprocessor 7")),
      FieldBitfieldEnum ("CP10") 20 2 CPACR_enum_fields (some ("Access privileges for coprocessor 10")),
      FieldBitfieldEnum ("CP11") 22 2 CPACR_enum_fields (some ("Access privileges for coprocessor 11"))
    ])
  ]),
  ("AUX", filt model [
    (none, RegisterDef.mk ("ICTR") ("Interrupt Controller Type Register") 0xE000E004 4 [
      FieldBitfieldMap ("INTLINESNUM") 0 4 (fun v => toString (min (32*(v+1)) 496) ++ " vectors") (some ("The total number of interrupt lines supported, as 32*(1+N)"))
    ]),
    (some ("M3"), RegisterDef.mk ("ACTLR - M3") ("Auxiliary Control Register - Cortex M3") 0xE000E008 4 [
      FieldBitfield ("DISFOLD") 2 1 none false,
      FieldBitfield ("DISDEFWBUF") 1 1 none false,
      FieldBitfield ("DISMCYCINT") 0 1 none false
    ]),
    (some ("M4"), RegisterDef.mk ("ACTLR - M4") ("Auxiliary Control Register - Cortex M4") 0xE000E008 4 [
      FieldBitfield ("DISOOFP") 9 1 none false,
      FieldBitfield ("DISFPCA") 8 1 none false,
      FieldBitfield ("DISFOLD") 2 1 none false,
      FieldBitfield ("DISDEFWBUF") 1 1 none false,
      FieldBitfield ("DISMCYCINT") 0 1 none false
    ]),
    (some ("M7"), RegisterDef.mk ("ACTLR - M7") ("Auxiliary Control Register - Cortex M7") 0xE000E008 4 [
      FieldBitfield ("DISFPUISSOPT") 28 1 none false,
      FieldBitfield ("DISCRITAXIRUW") 27 1 none false,
      FieldBitfield ("DISDYNADD") 26 1 none false,
      FieldBitfield ("DISISSCH1") 21 5 none true,
      FieldBitfieldEnum ("    VFP") 25 1 [
        ⟨0, true, "Normal operation", none⟩,
        ⟨1, false, "might not be issued in channel 1.", none⟩
      ] (some ("VFP")),
      FieldBitfieldEnum ("    MAC and MUL") 24 1 [
        ⟨0, true, "Normal operation", none⟩,
        ⟨1, false, "might not be issued in channel 1.", none⟩
      ] (some ("Integer MAC and MUL")),
      FieldBitfieldEnum ("    Loads to PC") 23 1 [
        ⟨0, true, "Normal operation", none⟩,
        ⟨1, false, "might not be issued in channel 1.", none⟩
      ] (some ("Loads to PC")),
      FieldBitfieldEnum ("    Indirect branches") 22 1 [
        ⟨0, true, "Normal operation", none⟩,
        ⟨1, false, "might not be issued in channel 1.", none⟩
      ] (some ("Indirect branches, but not loads to PC")),
      FieldBitfieldEnum ("    Direct branches") 21 1 [
        ⟨0, true, "Normal operation", none⟩,
        ⟨1, false, "might not be issued in channel 1.", none⟩
      ] (some ("Direct branches")),
      FieldBitfield ("DISDI") 16 5 none true,
      FieldBitfieldEnum ("    VFP") 20 1 [
        ⟨0, true, "Normal operation", none⟩,
        ⟨1, false, "Dual issue disabled", some ("Nothing can be dual-issued when this instruction type is in channel 0.")⟩
      ] (some ("VFP")),
      FieldBitfieldEnum ("    Integer MAC and MUL") 19 1 [
        ⟨0, true, "Normal operation", none⟩,
        ⟨1, false, "Dual issue disabled", some ("Nothing can be dual-issued when this instruction type is in channel 0.")⟩
      ] (some ("Integer MAC and MUL")),
      FieldBitfieldEnum ("    Loads to PC") 18 1 [
        ⟨0, true, "Normal operation", none⟩,
        ⟨1, false, "Dual issue disabled", some ("Nothing can be dual-issued when this instruction type is in channel 0.")⟩
      ] (some ("Loads to PC")),
      FieldBitfieldEnum ("    Indirect branches") 17 1 [
        ⟨0, true, "Normal operation", none⟩,
        ⟨1, false, "Dual issue disabled", some ("Nothing can be dual-issued when this instruction type is in channel 0.")⟩
      ] (some ("Indirect branches, but not loads to PC")),
      FieldBitfieldEnum ("    Direct branches") 16 1 [
        ⟨0, true, "Normal operation", none⟩,
        ⟨1, false, "Disabled", none⟩
      ] (some ("Direct branches")),
      FieldBitfield ("DISCRITAXIRUR") 15 1 none false,
      FieldBitfield ("DISBTACALLOC") 14 1 none false,
      FieldBitfield ("DISBTACREAD") 13 1 none false,
      FieldBitfield ("DISITMATBFLUSH") 12 1 none false,
      FieldBitfield ("DISRAMODE") 11 1 none false,
      FieldBitfield ("FPEXCODIS") 10 1 none false,
      FieldBitfield ("DISFOLD") 2 1 none false
    ])
  ])
]

/-- The FPU register table of `get_fpu_regs` in `scb.py` (not
model-filtered). -/
def get_fpu_regs : List RegisterDef := [
  RegisterDef.mk ("FPCCR") ("Floating Point Context Control Register") 0xE000EF34 4 [
    FieldBitfield ("ASPEN") 31 1 (some ("When this bit is set to 1, execution of a floating-point instruction sets the CONTROL.FPCA bit to 1")) false,
    FieldBitfield ("LSPEN") 30 1 (some ("Enables lazy context save of FP state")) false,
    FieldBitfield ("MONRDY") 8 1 (some ("Indicates whether the software executing when the processor allocated the FP stack frame was able to set the DebugMonitor exception to pending")) false,
    FieldBitfield ("BFRDY") 6 1 (some ("Indicates whether the software executing when the processor allocated the FP stack frame was able to set the BusFault exception to pending")) false,
    FieldBitfield ("MMRDY") 5 1 (some ("Indicates whether the software executing when the processor allocated the FP stack frame was able to set the MemManage exception to pending")) false,
    FieldBitfield ("HFRDY") 4 1 (some ("Indicates whether the software executing when the processor allocated the FP stack frame was able to set the HardFault exception to pending")) false,
    FieldBitfield ("THREAD") 3 1 (some ("Indicates the processor mode when it allocated the FP stack frame")) false,
    FieldBitfield ("USER") 1 1 (some ("Indicates the privilege level of the software executing when the processor allocated the FP stack frame")) false,
    FieldBitfield ("LSPACT") 0 1 (some ("Indicates whether Lazy preservation of the FP state is active")) false
  ],
  RegisterDef.mk ("FPCAR") ("Floating Point Context Address Register") 0xE000EF38 4 [
    FieldBitfield ("FPCAR") 2 28 (some ("The location of the unpopulated floating-point register space allocated on an exception stack frame.")) false
  ],
  RegisterDef.mk ("FPDSCR") ("Floating Point Default Status Control Register") 0xE000EF3C 4 [
    FieldBitfield ("AHP") 26 1 (some ("Default value for FPSCR.AHP")) false,
    FieldBitfield ("DN") 25 1 (some ("Default value for FPSCR.DN")) false,
    FieldBitfield ("FZ") 24 1 (some ("Default value for FPSCR.FZ")) false,
    FieldBitfield ("RMode") 22 2 (some ("Default value for FPSCR.RMode")) false
  ],
  RegisterDef.mk ("MVFR0") ("Media and FP Feature Register 0") 0xE000EF40 4 [
    FieldBitfieldEnum ("FP rounding modes") 28 4 [
      ⟨0b0000, true, "Not supported", none⟩,
      ⟨0b0001, true, "All rounding modes supported.", none⟩
    ] (some ("Indicates the rounding modes supported by the FP floating-point hardware.")),
    FieldBitfieldEnum ("Short vectors") 24 4 [
      ⟨0b0000, true, "Not supported", none⟩,
      ⟨0b0001, false, "Supported", none⟩
    ] none,
    FieldBitfieldEnum ("Square root") 20 4 [
      ⟨0b0000, true, "Not supported", none⟩,
      ⟨0b0001, false, "Supported", none⟩
    ] none,
    FieldBitfieldEnum ("Divide") 16 4 [
      ⟨0b0000, true, "Not supported", none⟩,
      ⟨0b0001, false, "Supported", none⟩
    ] none,
    FieldBitfieldEnum ("FP exception trapping") 12 4 [
      ⟨0b0000, true, "Not supported", none⟩
    ] none,
    FieldBitfieldEnum ("Double-precision") 8 4 [
      ⟨0b0000, true, "Not supported", none⟩,
      ⟨0b0010, false, "Supported", none⟩
    ] none,
    FieldBitfieldEnum ("Single-precision") 4 4 [
      ⟨0b0000, true, "Not supported", none⟩,
      ⟨0b0010, false, "Supported.", some ("FP adds an instruction to load a single-precision floating-point constant, and conversions between single-precision and fixed-point values.")⟩
    ] (some ("Indicates the hardware support for FP single-precision operations.")),
    FieldBitfieldEnum ("A_SIMD registers") 0 4 [
      ⟨0b0000, true, "Not supported", none⟩,
      ⟨0b0001, false, "Supported, 16 x 64-bit registers.", none⟩
    ] none
  ],
  RegisterDef.mk ("MVFR1") ("Media and FP Feature Register 1") 0xE000EF44 4 [
    FieldBitfieldEnum ("FP fused MAC") 28 4 [
      ⟨0b0000, true, "Not supported", none⟩,
      ⟨0b0001, false, "Supported", none⟩
    ] none,
    FieldBitfieldEnum ("FP HPFP") 24 4 [
      ⟨0b0000, true, "Not supported", none⟩,
      ⟨0b0001, false, "Supported half-single", some ("Supports conversion between half-precision and single-precision.")⟩,
      ⟨0b0010, false, "Supported half-single-double", some ("Supports conversion between half-precision and single-precision0b0001, and also supports conversion between half-precision and double-precision.")⟩
    ] (some ("Floating Point half-precision and double-precision. Indicates whether the FP extension implements half-precision and double-precision floating-point conversion instructions.")),
    FieldBitfieldEnum ("D_NaN mode") 4 4 [
      ⟨0b0000, true, "Not supported", none⟩,
      ⟨0b0001, false, "Hardware supports propagation of NaN values.", none⟩
    ] (some ("Indicates whether the FP hardware implementation supports only the Default NaN mode.")),
    FieldBitfieldEnum ("FtZ mode") 0 4 [
      ⟨0b0000, true, "Not supported", none⟩,
      ⟨0b0001, false, "Hardware supports full denormalized number arithmetic.", none⟩
    ] (some ("Indicates whether the FP hardware implementation supports only the Flush-to-zero mode of operation."))
  ],
  RegisterDef.mk ("MVFR2") ("Media and FP Feature Register 2") 0xE000EF48 4 [
    FieldBitfieldEnum ("VFP_Misc") 4 4 [
      ⟨0b0000, true, "No support for miscellaneous features.", none⟩,
      ⟨0b0100, false, "Support for miscellaneous features.", some ("Support for floating-point selection, floating-point conversion to integer with direct rounding modes, floating-point round to integral floating-point, and floating-point maximum number and minimum number.")⟩
    ] (some ("Indicates the hardware support for FP miscellaneous features"))
  ]
]

/-- Zero-padded base-`b` digit string of `v`, `d` digits wide (most
significant digit first). -/
def padDigits (b : Nat) : Nat → Nat → List Char
  | 0, _ => []
  | d+1, v => padDigits b d (v / b) ++ [Nat.digitChar (v % b)]

/-- Modelled from the spec: `format_int` of the missing `common` module as
used by `ArmToolsSCB.invoke` — the value rendered as zero-padded lowercase
hexadecimal, one digit per four bits. -/
def format_int (v : Nat) (bits : Nat) : String :=
  String.mk (padDigits 16 (bits / 4) v)

/-- Modelled from the spec (§4.3 rendering mode): a value rendered in the
selected base — binary digits when `base = 1` (one digit per bit),
hexadecimal when `base = 4` (one digit per four bits). -/
def valueStr (base : Nat) (bits : Nat) (v : Nat) : String :=
  if base == 1 then String.mk (padDigits 2 bits v) else String.mk (padDigits 16 (bits / 4) v)

/-- Modelled from the spec (§4.3): the printed line of one bitfield — name,
extracted value in the selected base, and the resolved label when there is
one. -/
def fieldLine (base : Nat) (f : BitField) (raw : Nat) : String :=
  let v := extract raw f.offset f.width
  let s := "    " ++ f.name ++ " = " ++ valueStr base f.width v
  match fieldLabel f raw with
  | some l => s ++ " - " ++ l
  | none => s

/-- Modelled from the spec (§4.3): the description lines printed beneath a
field line when show-descriptions is set — the bitfield's own description
and the matched enum entry's description. -/
def fieldDescrLines (f : BitField) (raw : Nat) : List String :=
  (match f.descr with
   | some d => ["        " ++ d]
   | none => []) ++
  (match f.kind with
   | FieldKind.enum es =>
     match matchEnum es (extract raw f.offset f.width) with
     | some e =>
       match e.descr with
       | some d => ["        " ++ d]
       | none => []
     | none => []
   | _ => [])

/-- Modelled from the spec (§4.3): the lines a register dump prints for a
given raw value — a header with name, raw value in the selected base,
address and description, then one line per non-suppressed field in declared
order, with description lines when requested. -/
def RegisterDef.dumpRaw (reg : RegisterDef) (raw : Nat) (descr : Bool) (base : Nat) (all : Bool) : List String :=
  (reg.name ++ " = " ++ valueStr base (reg.width * 8) raw ++ " @ " ++ format_int reg.addr 32 ++ " // " ++ reg.descr) ::
  List.flatten ((reg.fields.filter (fun f => shouldShow all f raw)).map
    (fun f => fieldLine base f raw :: (if descr then fieldDescrLines f raw else [])))

/-- A memory-read capability: address and byte count to a little-endian
unsigned value, or a read error.  Models the host debugger's
`read_reg (inf, addr, len)` used by `scb.py`. -/
def Oracle : Type := Nat → Nat → Except String Nat

/-- Modelled from the spec (§4.3): dump one register through the memory
capability — read `width` bytes at `addr`, then render; a failed read
propagates as the error of this register's dump. -/
def RegisterDef.dump (reg : RegisterDef) (inf : Oracle) (descr : Bool) (base : Nat) (all : Bool) : Except String (List String) :=
  match inf reg.addr reg.width with
  | Except.error e => Except.error e
  | Except.ok raw => Except.ok (reg.dumpRaw raw descr base all)

/-- Dump a list of registers in order, stopping at the first read error
(the error propagates out of the invocation, as an uncaught exception does
in the source). -/
def dumpRegs (rs : List RegisterDef) (inf : Oracle) (d : Bool) (b : Nat) (a : Bool) : Except String (List String) :=
  match rs with
  | [] => Except.ok []
  | r :: rest =>
    match RegisterDef.dump r inf d b a with
    | Except.error e => Except.error e
    | Except.ok ls =>
      match dumpRegs rest inf d b a with
      | Except.error e => Except.error e
      | Except.ok ls2 => Except.ok (ls ++ ls2)

/-- Dump the named sections of `get_scb_regs` in order, each introduced by
a blank line and a section header, as in `ArmToolsSCB.invoke`. -/
def dumpSections (sections : List (String × List RegisterDef)) (inf : Oracle) (d : Bool) (b : Nat) (a : Bool) : Except String (List String) :=
  match sections with
  | [] => Except.ok []
  | (nm, rs) :: rest =>
    match dumpRegs rs inf d b a with
    | Except.error e => Except.error e
    | Except.ok ls =>
      match dumpSections rest inf d b a with
      | Except.error e => Except.error e
      | Except.ok ls2 => Except.ok (("" :: (nm ++ " registers:") :: ls) ++ ls2)

/-- The CPUID-to-model dictionary of `ArmToolsSCB.invoke`, keyed by the
masked CPUID rendered through `format_int`. -/
def modelTable : List (String × String) := [
  ("4100c200", "M0"),
  ("4100c230", "M3"),
  ("4100c240", "M4"),
  ("4100c270", "M7"),
  ("4100d210", "M33")
]

/-- Model detection of `ArmToolsSCB.invoke`: mask the CPUID raw value with
`0xff00fff0` and look the hex rendering up in `modelTable`; an unknown
combination gives `none`. -/
def detectModel (cpuid : Nat) : Option String :=
  List.lookup (format_int (cpuid &&& 0xff00fff0) 32) modelTable

/-- Modelled from the spec (§6): `ArgCommand.process_args` of the missing
`common` module — the argument is a combinable sequence of single-character
modifiers; any character outside the command's registered modifier set is
malformed and yields `none`, otherwise each registered modifier maps to
whether it occurred. -/
def process_args (mods : List Char) (arg : List Char) : Option (Char → Bool) :=
  if arg.all (fun c => mods.contains c) then some (fun c => arg.contains c) else none

/-- The usage help printed by `ArmToolsSCB.print_help`. -/
def scbHelpText : String := "Usage: arm scb [/habf]"

/-- The usage help printed by `ArmToolsFPU.print_help`. -/
def fpuHelpText : String := "Usage: arm fpu [/hab]"

/-- `ArmToolsSCB.invoke`: parse the modifiers (malformed modifiers print
usage help and return before any target access), read CPUID, detect the
model, print the model line (and the force note, clearing the model, when
`/f` is given), then dump the filtered SCB/AUX sections.  The result is the
printed lines, or the first read error of the invocation. -/
def invokeSCB (argument : List Char) (inf : Oracle) : Except String (List String) :=
  match process_args ['h', 'a', 'b', 'f'] argument with
  | none => Except.ok [scbHelpText]
  | some args =>
    let base := if args 'b' then 1 else 4
    match inf 0xE000ED00 4 with
    | Except.error e => Except.error e
    | Except.ok cpuid =>
      let model := detectModel cpuid
      let line1 := "SCB for model " ++ (model.getD ("unknown"))
      let pre := if args 'f' then [line1, "(printing fields from all Cortex-M models)"] else [line1]
      let model := if args 'f' then none else model
      match dumpSections (get_scb_regs model) inf (args 'h') base (args 'a') with
      | Except.error e => Except.error e
      | Except.ok ls => Except.ok (pre ++ ls)

/-- `ArmToolsFPU.invoke`: parse the modifiers (malformed modifiers print
usage help and return before any target access), then dump the FPU
registers under a fixed header. -/
def invokeFPU (argument : List Char) (inf : Oracle) : Except String (List String) :=
  match process_args ['h', 'a', 'b'] argument with
  | none => Except.ok [fpuHelpText]
  | some args =>
    let base := if args 'b' then 1 else 4
    match dumpRegs get_fpu_regs inf (args 'h') base (args 'a') with
    | Except.error e => Except.error e
    | Except.ok ls => Except.ok ("SCB FP registers:" :: ls)

/-- Two consecutive independent invocations of the SCB command, possibly
against different target states: each invocation re-reads everything and
shares no state with the other. -/
def runTwice (argument : List Char) (inf1 inf2 : Oracle) :
    Except String (List String) × Except String (List String) :=
  (invokeSCB argument inf1, invokeSCB argument inf2)

/-- A placeholder register, used only as the default of total list
lookups. -/
def emptyReg : RegisterDef := RegisterDef.mk ("") ("") 0 0 []

/-- A placeholder bitfield, used only as the default of total list
lookups. -/
def emptyField : BitField := FieldBitfield ("") 0 0 none false

/-- The `SCB` section of the filtered register tables. -/
def scbSection (model : Option String) : List RegisterDef :=
  ((get_scb_regs model).lookup ("SCB")).getD []

/-- The `Implementer` field of the CPUID register (first field of the first
SCB register). -/
def cpuidImplementerField : BitField :=
  ((scbSection none).headD emptyReg).fields.headD emptyField

/-- The CCR register as it appears in the SCB section filtered for model
M4 (sixth register of the section). -/
def ccrM4 : RegisterDef := (scbSection (some ("M4"))).getD 5 emptyReg

theorem filt_mem {α : Type} (model : Option String) (xs : List (Option String × α)) (a : α) :
    a ∈ filt model xs ↔ ∃ tag, (tag, a) ∈ xs ∧ tagPasses model tag = true := by
  simp only [filt, List.mem_map, List.mem_filter]
  constructor
  · rintro ⟨⟨t, b⟩, ⟨hmem, hpass⟩, rfl⟩
    exact ⟨t, hmem, hpass⟩
  · rintro ⟨t, hmem, hpass⟩
    exact ⟨(t, a), ⟨hmem, hpass⟩, rfl⟩

theorem lookup_eq_none_of_not_mem {β : Type} (k : String) (l : List (String × β))
    (h : k ∉ l.map Prod.fst) : List.lookup k l = none := by
  induction l with
  | nil => rfl
  | cons x xs ih =>
    obtain ⟨k1, b1⟩ := x
    simp only [List.map_cons, List.mem_cons] at h
    push_neg at h
    obtain ⟨h1, h2⟩ := h
    have hbeq : (k == k1) = false := by
      simpa using h1
    simp [List.lookup, hbeq, ih h2]

theorem filt_none_eq_map {α : Type} (xs : List (Option String × α)) :
    filt none xs = xs.map Prod.snd := by
  induction xs with
  | nil => rfl
  | cons x xs ih =>
    obtain ⟨tag, a⟩ := x
    cases tag <;> simp [filt, tagPasses] at ih ⊢ <;> exact ih

theorem dump_congr (reg : RegisterDef) (d : Bool) (b : Nat) (a : Bool) (inf1 inf2 : Oracle)
    (h : inf1 reg.addr reg.width = inf2 reg.addr reg.width) :
    RegisterDef.dump reg inf1 d b a = RegisterDef.dump reg inf2 d b a := by
  unfold RegisterDef.dump
  rw [h]

theorem dumpRegs_congr (rs : List RegisterDef) (d : Bool) (b : Nat) (a : Bool)
    (inf1 inf2 : Oracle) (hag : ∀ r ∈ rs, inf1 r.addr r.width = inf2 r.addr r.width) :
    dumpRegs rs inf1 d b a = dumpRegs rs inf2 d b a := by
  induction rs with
  | nil => rfl
  | cons r rest ih =>
    have h1 : RegisterDef.dump r inf1 d b a = RegisterDef.dump r inf2 d b a :=
      dump_congr r d b a inf1 inf2 (hag r (List.mem_cons_self r rest))
    have h2 : dumpRegs rest inf1 d b a = dumpRegs rest inf2 d b a :=
      ih (fun x hx => hag x (List.mem_cons_of_mem r hx))
    simp only [dumpRegs, h1, h2]

theorem dump_isOk (r : RegisterDef) (inf : Oracle) (d : Bool) (b : Nat) (a : Bool)
    (h : ∀ x w, (inf x w).isOk = true) : (RegisterDef.dump r inf d b a).isOk = true := by
  unfold RegisterDef.dump
  cases hx : inf r.addr r.width with
  | error e =>
    have hh := h r.addr r.width
    rw [hx] at hh
    simp [Except.isOk, Except.toBool] at hh
  | ok v => rfl

theorem dumpRegs_isOk (rs : List RegisterDef) (inf : Oracle) (d : Bool) (b : Nat) (a : Bool)
    (h : ∀ x w, (inf x w).isOk = true) : (dumpRegs rs inf d b a).isOk = true := by
  induction rs with
  | nil => rfl
  | cons r rest ih =>
    have h1 := dump_isOk r inf d b a h
    unfold dumpRegs
    cases hx : RegisterDef.dump r inf d b a with
    | error e => rw [hx] at h1; simp [Except.isOk, Except.toBool] at h1
    | ok ls =>
      cases hy : dumpRegs rest inf d b a with
      | error e => rw [hy] at ih; simp [Except.isOk, Except.toBool] at ih
      | ok ls2 => rfl

theorem dumpSections_isOk (ss : List (String × List RegisterDef)) (inf : Oracle)
    (d : Bool) (b : Nat) (a : Bool) (h : ∀ x w, (inf x w).isOk = true) :
    (dumpSections ss inf d b a).isOk = true := by
  induction ss with
  | nil => rfl
  | cons s rest ih =>
    obtain ⟨nm, rs⟩ := s
    have h1 := dumpRegs_isOk rs inf d b a h
    unfold dumpSections
    cases hx : dumpRegs rs inf d b a with
    | error e => rw [hx] at h1; simp [Except.isOk, Except.toBool] at h1
    | ok ls =>
      cases hy : dumpSections rest inf d b a with
      | error e => rw [hy] at ih; simp [Except.isOk, Except.toBool] at ih
      | ok ls2 => rfl

theorem invokeSCB_isOk (arg : List Char) (inf : Oracle)
    (h : ∀ x w, (inf x w).isOk = true) : (invokeSCB arg inf).isOk = true := by
  unfold invokeSCB
  cases hq : process_args ['h', 'a', 'b', 'f'] arg with
  | none => rfl
  | some args =>
    cases hx : inf 0xE000ED00 4 with
    | error e =>
      have hh := h 0xE000ED00 4
      rw [hx] at hh
      simp [Except.isOk, Except.toBool] at hh
    | ok cpuid =>
      simp only []
      have hds := dumpSections_isOk
        (get_scb_regs (if args 'f' then none else detectModel cpuid)) inf (args 'h')
        (if args 'b' then 1 else 4) (args 'a') h
      cases hy : dumpSections (get_scb_regs (if args 'f' then none else detectModel cpuid))
          inf (args 'h') (if args 'b' then 1 else 4) (args 'a') with
      | error e => rw [hy] at hds; simp [Except.isOk, Except.toBool] at hds
      | ok ls => rfl

/-- C1: bitfield extraction returns `(raw >> offset) & ((1 << width) - 1)`
— equivalently `raw / 2^offset % 2^width` — for every raw value, offset and
width; in particular `extract 0x4100c240 24 8 = 0x41`.  It is a total
(pure) function with no error conditions. -/
theorem extract_bitfield_spec :
    (∀ raw offset width : Nat,
        extract raw offset width = (raw >>> offset) &&& ((1 <<< width) - 1) ∧
        extract raw offset width = raw / 2 ^ offset % 2 ^ width) ∧
    extract 0x4100c240 24 8 = 0x41 := by
  refine ⟨fun raw offset width => ⟨rfl, ?_⟩, by decide⟩
  simp [extract, Nat.shiftLeft_eq, Nat.shiftRight_eq_div_pow,
    Nat.and_pow_two_sub_one_eq_mod]

/-- C2: enumeration matching returns the first candidate entry whose value
equals the field value; a computed-label (map) field always matches and
formats its label from the value; an unmatched value yields no label, and
the printed field line is then the bare numeric value with no textual
label.  Concretely, value 0x41 in the 8-bit CPUID Implementer field
resolves to label "ARM", and an unmatched Implementer value resolves to no
label. -/
theorem enum_matching_spec :
    (∀ (es : List EnumEntry) (v : Nat) (e : EnumEntry),
        matchEnum es v = some e ↔
          e.val = v ∧ ∃ as bs, es = as ++ e :: bs ∧ ∀ a ∈ as, a.val ≠ v) ∧
    (∀ (f : BitField) (fn : Nat → String) (raw : Nat), f.kind = FieldKind.map fn →
        fieldLabel f raw = some (fn (extract raw f.offset f.width))) ∧
    (∀ (f : BitField) (es : List EnumEntry) (raw : Nat), f.kind = FieldKind.enum es →
        matchEnum es (extract raw f.offset f.width) = none → fieldLabel f raw = none) ∧
    (∀ (base : Nat) (f : BitField) (raw : Nat), fieldLabel f raw = none →
        fieldLine base f raw =
          "    " ++ f.name ++ " = " ++ valueStr base f.width (extract raw f.offset f.width)) ∧
    fieldLabel cpuidImplementerField 0x4100c240 = some ("ARM") ∧
    fieldLabel cpuidImplementerField 0x4200c240 = none := by
  refine ⟨?_, ?_, ?_, ?_, rfl, rfl⟩
  · intro es v e
    rw [matchEnum, List.find?_eq_some]
    simp
  · intro f fn raw h
    simp [fieldLabel, h]
  · intro f es raw h hm
    simp [fieldLabel, h, hm]
  · intro base f raw h
    simp [fieldLine, h]

/-- C2 witness: the enum-fallback part of `enum_matching_spec` applied to
the concrete CPUID Implementer field at a raw value whose Implementer byte
is 0x42, which matches no entry. -/
theorem enum_matching_spec_witness :
    fieldLabel cpuidImplementerField 0x4200c240 = none :=
  enum_matching_spec.2.2.1 cpuidImplementerField [⟨0x41, false, "ARM", none⟩] 0x4200c240 rfl rfl

/-- C3: a field matching a default-flagged enum entry is omitted unless the
field is always-show or show-all is set; the fields shown with
show-all=false are (in order) a sublist — hence a subset — of those shown
with show-all=true; and with show-all=true every declared field is listed,
for every raw value (in particular raw value 0). -/
theorem display_suppression_spec :
    (∀ (f : BitField) (raw : Nat),
        shouldShow false f raw = (f.always || !(isDefaultValue f raw))) ∧
    (∀ (reg : RegisterDef) (raw : Nat),
        (shownFields reg raw false).Sublist (shownFields reg raw true)) ∧
    (∀ (reg : RegisterDef) (raw : Nat),
        shownFields reg raw true = reg.fields.map BitField.name) := by
  have hall : ∀ (reg : RegisterDef) (raw : Nat),
      shownFields reg raw true = reg.fields.map BitField.name := by
    intro reg raw
    simp [shownFields, shouldShow, List.filter_true]
  refine ⟨fun f raw => rfl, fun reg raw => ?_, hall⟩
  rw [hall reg raw]
  exact List.Sublist.map _ (List.filter_sublist _)

set_option maxRecDepth 8000 in
/-- C4: model detection masks CPUID with 0xff00fff0 and maps the result
through the fixed table: the five listed masked values map to
M0/M3/M4/M7/M33; any value whose masked rendering is not a table key maps
to `none` (reported as "unknown"); and with a `none` model the variant
filter passes every entry, so the dump proceeds — on a target whose CPUID
reads an unrecognized 0x12345678 the invocation prints "SCB for model
unknown" followed by a non-empty dump. -/
theorem model_detection_spec :
    detectModel 0x4100c230 = some ("M3") ∧
    detectModel 0x4100c200 = some ("M0") ∧
    detectModel 0x4100c240 = some ("M4") ∧
    detectModel 0x4100c270 = some ("M7") ∧
    detectModel 0x4100d210 = some ("M33") ∧
    (∀ cpuid : Nat, format_int (cpuid &&& 0xff00fff0) 32 ∉ modelTable.map Prod.fst →
        detectModel cpuid = none) ∧
    (∀ (xs : List (Option String × RegisterDef)), filt none xs = xs.map Prod.snd) ∧
    ((invokeSCB [] (fun _ _ => Except.ok 0x12345678)).toOption.getD []).headD ("")
        = "SCB for model unknown" ∧
    1 < ((invokeSCB [] (fun _ _ => Except.ok 0x12345678)).toOption.getD []).length := by
  refine ⟨rfl, rfl, rfl, rfl, rfl, ?_, fun xs => filt_none_eq_map xs, rfl, by decide⟩
  intro cpuid h
  exact lookup_eq_none_of_not_mem _ _ h

/-- C4 witness: `model_detection_spec` applied to the concrete unrecognized
CPUID value 0x12345678, whose masked rendering "12005670" is not a key of
the model table. -/
theorem model_detection_spec_witness : detectModel 0x12345678 = none :=
  model_detection_spec.2.2.2.2.2.1 0x12345678 (by decide)

/-- C5: variant filtering is set membership on the comma-separated tag
labels: an item is in the filtered set exactly when some entry carrying it
has a passing tag; a tag "M3,M7" passes exactly for detected models M3 and
M7 (so not for M4 or M0); an untagged entry passes for every model; and the
unknown (`none`) model passes every tag, disabling filtering. -/
theorem variant_filter_spec :
    (∀ (α : Type) (model : Option String) (xs : List (Option String × α)) (a : α),
        a ∈ filt model xs ↔ ∃ tag, (tag, a) ∈ xs ∧ tagPasses model tag = true) ∧
    (∀ m : String, tagPasses (some m) (some ("M3,M7")) = true ↔ (m = "M3" ∨ m = "M7")) ∧
    (∀ model : Option String, tagPasses model none = true) ∧
    (∀ tag : Option String, tagPasses none tag = true) := by
  refine ⟨fun α model xs a => filt_mem model xs a, ?_, fun model => rfl, ?_⟩
  · intro m
    have hsplit : splitComma ("M3,M7") = ["M3", "M7"] := rfl
    simp [tagPasses, hsplit, List.contains]
  · intro tag
    cases tag <;> rfl

/-- C6 counterexample: in the register set filtered for model M4 the CCR
register (sixth SCB register) is present but its field list is empty —
no CCR field at all applies to M4 in the tables, since every CCR field is
tagged "M7" or "M3,M7" — refuting the claim that CCR is dumped for M4
because other (non-BP/IC/DC) fields apply to M4. -/
theorem ccr_m4_no_fields_counterexample :
    ccrM4.name = "CCR" ∧ ccrM4.fields = [] ∧
    tagPasses (some ("M4")) (some ("M3,M7")) = false := ⟨rfl, rfl, rfl⟩

/-- C6 (amended): when CPUID reads 0x410FC241 the detected model is M4; in
the M4-filtered SCB set the M7-only CCR fields BP, IC and DC are filtered
out, and the CCR register itself is still present and dumped (it is an
untagged register entry, and its dump always emits its header line) — but
not because other fields apply to M4: no CCR field survives the M4 filter,
every CCR field being tagged "M7" or "M3,M7". -/
theorem ccr_m4_filtering_spec :
    detectModel 0x410FC241 = some ("M4") ∧
    ccrM4.name = "CCR" ∧
    ccrM4 ∈ scbSection (some ("M4")) ∧
    (ccrM4.fields.map BitField.name).contains ("BP") = false ∧
    (ccrM4.fields.map BitField.name).contains ("IC") = false ∧
    (ccrM4.fields.map BitField.name).contains ("DC") = false ∧
    (∀ (raw : Nat) (d : Bool) (b : Nat) (a : Bool),
        0 < (ccrM4.dumpRaw raw d b a).length) := by
  refine ⟨rfl, rfl, ?_, rfl, rfl, rfl, ?_⟩
  · have h : 5 < (scbSection (some ("M4"))).length := by decide
    have he : ccrM4 = (scbSection (some ("M4"))).get ⟨5, h⟩ := rfl
    rw [he]
    exact List.get_mem _ _ _
  · intro raw d b a
    simp [RegisterDef.dumpRaw]

/-- C7: for both commands, an argument containing an unrecognized modifier
character parses to `none`, and the invocation then returns exactly the
usage-help line — for every memory oracle, so no target read is performed
on that path. -/
theorem malformed_args_spec (arg : List Char) (inf : Oracle) :
    (process_args ['h', 'a', 'b', 'f'] arg = none →
        invokeSCB arg inf = Except.ok [scbHelpText]) ∧
    (process_args ['h', 'a', 'b'] arg = none →
        invokeFPU arg inf = Except.ok [fpuHelpText]) := by
  constructor
  · intro h
    simp [invokeSCB, h]
  · intro h
    simp [invokeFPU, h]

/-- C7 witness: `malformed_args_spec` applied to the concrete malformed
argument "x" and an oracle that fails every read — both commands still
return the usage help, showing no read is attempted. -/
theorem malformed_args_spec_witness :
    invokeSCB ['x'] (fun _ _ => Except.error ("no access")) = Except.ok [scbHelpText] ∧
    invokeFPU ['x'] (fun _ _ => Except.error ("no access")) = Except.ok [fpuHelpText] :=
  ⟨(malformed_args_spec ['x'] (fun _ _ => Except.error ("no access"))).1 rfl,
   (malformed_args_spec ['x'] (fun _ _ => Except.error ("no access"))).2 rfl⟩

/-- C8: a read failure is surfaced as the invocation's error (for a
well-formed argument, a failing oracle makes the invocation return exactly
that error), command invocations are independent — the second of two
consecutive invocations is a pure function of its own oracle, unaffected by
a failed first invocation — and re-issuing the command against an oracle
whose reads all succeed yields a successful dump. -/
theorem invocation_retry_spec (arg : List Char) (inf1 inf2 : Oracle)
    (h : ∀ a w, (inf2 a w).isOk = true) :
    (runTwice arg inf1 inf2).2 = invokeSCB arg inf2 ∧
    (invokeSCB arg inf2).isOk = true ∧
    (∀ s : String, (process_args ['h', 'a', 'b', 'f'] arg).isSome = true →
        invokeSCB arg (fun _ _ => Except.error s) = Except.error s) := by
  refine ⟨rfl, invokeSCB_isOk arg inf2 h, ?_⟩
  intro s hp
  cases hq : process_args ['h', 'a', 'b', 'f'] arg with
  | none => rw [hq] at hp; simp at hp
  | some args => simp [invokeSCB, hq]

/-- C8 witness: `invocation_retry_spec` at the empty argument, a first
oracle that fails every read and a second oracle that reads zero
everywhere: the failed first invocation surfaces its read error, and the
re-issued invocation succeeds. -/
theorem invocation_retry_spec_witness :
    (runTwice [] (fun _ _ => Except.error ("read error")) (fun _ _ => Except.ok 0)).2
        = invokeSCB [] (fun _ _ => Except.ok 0) ∧
    (invokeSCB [] (fun _ _ => Except.ok 0)).isOk = true ∧
    invokeSCB [] (fun _ _ => Except.error ("read error")) = Except.error ("read error") :=
  have hmain := invocation_retry_spec [] (fun _ _ => Except.error ("read error"))
    (fun _ _ => Except.ok 0) (fun _ _ => rfl)
  ⟨hmain.1, hmain.2.1, hmain.2.2 ("read error") rfl⟩

/-- C9: the rendered dump is a pure function of (raw value, flags, table):
two oracles that return the same raw values for the registers of a table
produce identical dump output, register by register and for the whole
table — in particular dumping twice on the same inputs is identical. -/
theorem dump_pure_spec (d : Bool) (b : Nat) (a : Bool) (inf1 inf2 : Oracle)
    (rs : List RegisterDef)
    (hag : ∀ r ∈ rs, inf1 r.addr r.width = inf2 r.addr r.width) :
    dumpRegs rs inf1 d b a = dumpRegs rs inf2 d b a ∧
    (∀ reg ∈ rs, RegisterDef.dump reg inf1 d b a = RegisterDef.dump reg inf2 d b a) := by
  refine ⟨dumpRegs_congr rs d b a inf1 inf2 hag, ?_⟩
  intro reg hreg
  exact dump_congr reg d b a inf1 inf2 (hag reg hreg)

/-- C9 witness: `dump_pure_spec` on the FPU table with two different
oracles that agree on every FPU register read (the second fails at address
999, which no FPU register uses): the dumps are identical. -/
theorem dump_pure_spec_witness :
    dumpRegs get_fpu_regs (fun _ _ => Except.ok 0) false 4 false
      = dumpRegs get_fpu_regs
          (fun addr _ => if addr == 999 then Except.error ("x") else Except.ok 0) false 4 false :=
  (dump_pure_spec false 4 false (fun _ _ => Except.ok 0)
    (fun addr _ => if addr == 999 then Except.error ("x") else Except.ok 0)
    get_fpu_regs (by intro r hr; fin_cases hr <;> rfl)).1

/-- C10: for every model argument `get_scb_regs` returns (totally, with no
failure) an association list whose sections are exactly "SCB" then "AUX",
and `get_fpu_regs` is the fixed six-register list — so the except branch
guarding table construction in each command's invoke can never fire. -/
theorem table_sections_spec :
    (∀ model : Option String, (get_scb_regs model).map Prod.fst = ["SCB", "AUX"]) ∧
    get_fpu_regs.map RegisterDef.name
      = ["FPCCR", "FPCAR", "FPDSCR", "MVFR0", "MVFR1", "MVFR2"] :=
  ⟨fun _ => rfl, rfl⟩
